import Mathlib

/-!
Verification development for the moltworker gateway coordination core:
the Process Waiter, Gateway Locator/Starter, Env Builder, Storage Mount
and Sync Runner components.  The gateway implementation modules
(`src/gateway/env.ts`, `process.ts`, `r2.ts`, `sync.ts`, `utils.ts`) are
only re-exported by `src/gateway/index.ts`; their bodies are modelled
here from the component contracts of the specification.
-/

/-- A snapshot of an external process as observed at one poll tick:
the (possibly unreliable) terminal-status flag and the standard output
accumulated so far. -/
structure ProcSnapshot where
  statusTerminal : Bool
  output : String
deriving DecidableEq

/-- Modelled from the spec: a `ProcessHandle` is an opaque reference to a
spawned external process; we embed it as the trace of snapshots the
poller would observe at each successive poll tick (the implementation in
`src/gateway/utils.ts` is not under `src/`). -/
abbrev ProcHandle := Nat → ProcSnapshot

/-- The result of a wait operation: the accumulated output, a completion
flag, and the number of poll ticks that elapsed before returning. -/
structure WaitResult where
  output : String
  completed : Bool
  ticks : Nat
deriving DecidableEq

/-- Modelled from the spec: the polling loop of the Process Waiter
(`waitForProcess` in `src/gateway/utils.ts`, not under `src/`).  At each
tick it first tests the caller-supplied completion predicate on the
accumulated output (output-based detection takes precedence over the
unreliable status field), then the terminal-status flag, and otherwise
polls again; when the fuel (remaining ticks before the deadline) runs
out it returns the output accumulated so far with a false completion
flag. -/
def waitLoop (proc : ProcHandle) (P : String → Bool) : Nat → Nat → WaitResult
  | 0, elapsed => { output := (proc elapsed).output, completed := false, ticks := elapsed }
  | fuel + 1, elapsed =>
      let s := proc elapsed
      if P s.output then { output := s.output, completed := true, ticks := elapsed }
      else if s.statusTerminal then { output := s.output, completed := true, ticks := elapsed }
      else waitLoop proc P fuel (elapsed + 1)

/-- Modelled from the spec: `waitForProcess` polls a process handle at a
fixed interval until the completion predicate holds on the accumulated
output, the handle reports terminal status, or the timeout (measured
here in poll ticks) elapses. -/
def waitForProcess (proc : ProcHandle) (P : String → Bool) (timeoutTicks : Nat) : WaitResult :=
  waitLoop proc P timeoutTicks 0

theorem waitLoop_pred_early (proc : ProcHandle) (P : String → Bool) :
    ∀ fuel elapsed i, i < fuel → P (proc (elapsed + i)).output = true →
      (waitLoop proc P fuel elapsed).completed = true ∧
      (waitLoop proc P fuel elapsed).ticks ≤ elapsed + i := by
  intro fuel
  induction fuel with
  | zero => intro elapsed i hi; omega
  | succ fuel ih =>
    intro elapsed i hi hP
    by_cases h1 : P (proc elapsed).output = true
    · constructor
      · simp [waitLoop, h1]
      · simp [waitLoop, h1]
    · by_cases h2 : (proc elapsed).statusTerminal = true
      · constructor
        · simp [waitLoop, h1, h2]
        · simp [waitLoop, h1, h2]
      · cases i with
        | zero => simp at hP; exact absurd hP h1
        | succ i =>
          have hrec := ih (elapsed + 1) i (by omega)
            (by rw [show elapsed + 1 + i = elapsed + (i + 1) by omega]; exact hP)
          constructor
          · simp only [waitLoop, h1, h2, if_false, Bool.false_eq_true]
            exact hrec.1
          · simp only [waitLoop, h1, h2, if_false, Bool.false_eq_true]
            calc (waitLoop proc P fuel (elapsed + 1)).ticks ≤ elapsed + 1 + i := hrec.2
              _ = elapsed + (i + 1) := by omega

/-- C1: for every completion predicate `P`, timeout and process handle,
`waitForProcess` returns with `completed = true` as soon as the
accumulated output satisfies `P`, without waiting for the remainder of
the timeout: if `P` holds on the output observed at some tick `i` before
the deadline, the wait returns completed and after at most `i` ticks. -/
theorem waitForProcess_completes_early (proc : ProcHandle) (P : String → Bool)
    (timeoutTicks i : Nat) (hi : i < timeoutTicks)
    (hP : P (proc i).output = true) :
    (waitForProcess proc P timeoutTicks).completed = true ∧
    (waitForProcess proc P timeoutTicks).ticks ≤ i := by
  have h := waitLoop_pred_early proc P timeoutTicks 0 i hi (by simpa using hP)
  simpa [waitForProcess] using h

/-- `leadsWith needle hay` tests whether `needle` is an initial segment
of `hay`. -/
def leadsWith : List Char → List Char → Bool
  | [], _ => true
  | _ :: _, [] => false
  | a :: as, b :: bs => a == b && leadsWith as bs

/-- `hasSub needle hay` tests whether `needle` occurs as a contiguous
run inside `hay`. -/
def hasSub : List Char → List Char → Bool
  | needle, [] => needle.isEmpty
  | needle, c :: rest => leadsWith needle (c :: rest) || hasSub needle rest

/-- Modelled from the spec: success detection for CLI operations
(in `src/gateway/utils.ts` callers, not under `src/`) is a
case-insensitive check that the accumulated output contains the marker
substring `"approved"`. -/
def cliSuccess (out : String) : Bool :=
  hasSub "approved".toList (out.toList.map Char.toLower)

/-- The scenario trace for C1: the output stream delivers
`"Request APPROVED"` at poll tick 3 and the process never reports
terminal status. -/
def approvalTrace : ProcHandle := fun n =>
  { statusTerminal := false
    output := if 3 ≤ n then "Request APPROVED" else "" }

/-- Witness for C1: with the approval predicate, a trace delivering
`"Request APPROVED"` at tick 3 and a 15-tick timeout, the wait returns
completed after at most 3 ticks, not 15. -/
theorem waitForProcess_completes_early_witness :
    (waitForProcess approvalTrace cliSuccess 15).completed = true ∧
    (waitForProcess approvalTrace cliSuccess 15).ticks ≤ 3 :=
  waitForProcess_completes_early approvalTrace cliSuccess 15 3 (by decide) (by decide)

theorem waitLoop_times_out (proc : ProcHandle) (P : String → Bool) :
    ∀ fuel elapsed,
      (∀ j, elapsed ≤ j → j < elapsed + fuel →
        P (proc j).output = false ∧ (proc j).statusTerminal = false) →
      waitLoop proc P fuel elapsed =
        { output := (proc (elapsed + fuel)).output, completed := false, ticks := elapsed + fuel } := by
  intro fuel
  induction fuel with
  | zero => intro elapsed _; simp [waitLoop]
  | succ fuel ih =>
    intro elapsed h
    have h0 := h elapsed (le_refl elapsed) (by omega)
    have hrec := ih (elapsed + 1) (fun j hj1 hj2 => h j (by omega) (by omega))
    simp only [waitLoop, h0.1, h0.2, if_false, Bool.false_eq_true]
    rw [hrec]
    have : elapsed + 1 + fuel = elapsed + (fuel + 1) := by omega
    rw [this]

/-- C4: when neither terminal status nor the completion predicate is
observed at any poll tick before the deadline, `waitForProcess` returns
the output accumulated so far together with a false completion flag —
a plain (total) result value, not a raised error. -/
theorem waitForProcess_timeout_result (proc : ProcHandle) (P : String → Bool)
    (timeoutTicks : Nat)
    (h : ∀ j, j < timeoutTicks → P (proc j).output = false ∧ (proc j).statusTerminal = false) :
    waitForProcess proc P timeoutTicks =
      { output := (proc timeoutTicks).output, completed := false, ticks := timeoutTicks } := by
  have hl := waitLoop_times_out proc P timeoutTicks 0 (fun j _ hj => h j (by omega))
  simpa [waitForProcess] using hl

/-- The scenario trace for C4: a process that keeps running, never
reports terminal status, and never emits the success marker. -/
def silentTrace : ProcHandle := fun _ =>
  { statusTerminal := false, output := "still working" }

/-- Witness for C4: a process that never completes within a 5-tick
timeout yields the output accumulated so far with `completed = false`. -/
theorem waitForProcess_timeout_result_witness :
    waitForProcess silentTrace cliSuccess 5 =
      { output := "still working", completed := false, ticks := 5 } :=
  waitForProcess_timeout_result silentTrace cliSuccess 5
    (fun _ _ => ⟨show cliSuccess "still working" = false by decide, rfl⟩)

/-- The observable outcome of one CLI invocation of the
device/gateway-management tool: accumulated standard output, the exit
code, and the (unreliable) status field of the hosting runtime. -/
structure CliProcResult where
  stdout : String
  exitCode : Int
  status : String
deriving DecidableEq

/-- Modelled from the spec: success of a CLI invocation is decided by
the case-insensitive substring check `cliSuccess` over the accumulated
output only (the implementation callers of `waitForProcess` are not
under `src/`). -/
def cliResultSuccess (r : CliProcResult) : Bool :=
  cliSuccess r.stdout

/-- C5: CLI success is determined by a case-insensitive substring match
over the accumulated output — two invocations with the same output are
judged identically whatever their exit codes or status fields, the match
accepts `"approved"` in any letter case, and neither a zero exit code
nor a clean status can make a run without the marker count as success. -/
theorem cliResultSuccess_ignores_exit_code :
    (∀ r1 r2 : CliProcResult, r1.stdout = r2.stdout →
      cliResultSuccess r1 = cliResultSuccess r2) ∧
    cliResultSuccess { stdout := "Request APPROVED", exitCode := 1, status := "failed" } = true ∧
    cliResultSuccess { stdout := "request denied", exitCode := 0, status := "completed" } = false := by
  refine ⟨fun r1 r2 h => ?_, by decide, by decide⟩
  simp [cliResultSuccess, h]

/-- Witness for C5: two results sharing the output `"ok Approved"` but
with different exit codes and status fields get the same verdict. -/
theorem cliResultSuccess_ignores_exit_code_witness :
    cliResultSuccess { stdout := "ok Approved", exitCode := 0, status := "running" } =
      cliResultSuccess { stdout := "ok Approved", exitCode := 7, status := "exited" } :=
  cliResultSuccess_ignores_exit_code.1
    { stdout := "ok Approved", exitCode := 0, status := "running" }
    { stdout := "ok Approved", exitCode := 7, status := "exited" } rfl

/-- The external configuration record consumed by the Env Builder:
each field is optional; absent fields must be omitted from the output,
never defaulted. -/
structure MoltbotConfig where
  devMode : Option Bool
  gatewayToken : Option String
  anthropicApiKey : Option String
  sandboxSleepAfter : Option String
deriving DecidableEq

/-- Modelled from the spec: the Env Builder (`buildEnvVars` in
`src/gateway/env.ts`, not under `src/`) is a pure one-to-one rename from
external configuration keys to container environment variable names
(for example the dev-mode flag renames to the gateway-prefixed
`CLAWDBOT_DEV_MODE`); every absent key is simply omitted. -/
def buildEnvVars (c : MoltbotConfig) : List (String × String) :=
  (match c.devMode with
   | some b => [("CLAWDBOT_DEV_MODE", if b then "true" else "false")]
   | none => []) ++
  (match c.gatewayToken with
   | some t => [("CLAWDBOT_GATEWAY_TOKEN", t)]
   | none => []) ++
  (match c.anthropicApiKey with
   | some k => [("ANTHROPIC_API_KEY", k)]
   | none => []) ++
  (match c.sandboxSleepAfter with
   | some s => [("SANDBOX_SLEEP_AFTER", s)]
   | none => [])

/-- C6: for every configuration object lacking an optional key, the Env
Builder output contains no corresponding container environment variable:
the absent key is omitted from the result rather than defaulted, and the
builder is total (no error case exists). -/
theorem buildEnvVars_omits_absent (c : MoltbotConfig) :
    (c.devMode = none → "CLAWDBOT_DEV_MODE" ∉ (buildEnvVars c).map Prod.fst) ∧
    (c.gatewayToken = none → "CLAWDBOT_GATEWAY_TOKEN" ∉ (buildEnvVars c).map Prod.fst) ∧
    (c.anthropicApiKey = none → "ANTHROPIC_API_KEY" ∉ (buildEnvVars c).map Prod.fst) ∧
    (c.sandboxSleepAfter = none → "SANDBOX_SLEEP_AFTER" ∉ (buildEnvVars c).map Prod.fst) := by
  obtain ⟨d, g, a, s⟩ := c
  refine ⟨?_, ?_, ?_, ?_⟩
  · rintro rfl; cases g <;> cases a <;> cases s <;> simp [buildEnvVars]
  · rintro rfl; cases d <;> cases a <;> cases s <;> simp [buildEnvVars]
  · rintro rfl; cases d <;> cases g <;> cases s <;> simp [buildEnvVars]
  · rintro rfl; cases d <;> cases g <;> cases a <;> simp [buildEnvVars]

/-- The configuration used as the C6 witness: every optional key is
absent. -/
def emptyMoltbotConfig : MoltbotConfig :=
  { devMode := none, gatewayToken := none, anthropicApiKey := none, sandboxSleepAfter := none }

/-- Witness for C6: a configuration with no dev-mode key yields an
environment with no `CLAWDBOT_DEV_MODE` entry. -/
theorem buildEnvVars_omits_absent_witness :
    "CLAWDBOT_DEV_MODE" ∉ (buildEnvVars emptyMoltbotConfig).map Prod.fst :=
  (buildEnvVars_omits_absent emptyMoltbotConfig).1 rfl

/-- C7: the configuration `{devMode := true, gatewayToken := "abc"}`
produces exactly the dev-mode container variable set to the truthy value
`"true"` and the gateway token variable set to `"abc"`, with no other
keys present. -/
theorem buildEnvVars_devMode_token_scenario :
    buildEnvVars
        { devMode := some true, gatewayToken := some "abc",
          anthropicApiKey := none, sandboxSleepAfter := none } =
      [("CLAWDBOT_DEV_MODE", "true"), ("CLAWDBOT_GATEWAY_TOKEN", "abc")] := rfl

/-- Modelled from the spec: the fixed container path at which the remote
bucket is mounted and to which backups are synced (`R2_MOUNT_PATH` in
`src/config.ts`, not under `src/`). -/
def R2_MOUNT_PATH : String := "/data/moltbot"

/-- Credentials supplied to one mount attempt; constructed per attempt
and discarded after. -/
structure MountConfig where
  bucket : String
  accessKeyId : String
  secretAccessKey : String
deriving DecidableEq

/-- The sandbox state observable by the mount logic: the live mount
table, as a list of mounted paths. -/
structure SandboxState where
  mountTable : List String
deriving DecidableEq

/-- Modelled from the spec: the collaborator-provided bucket-mount call.
When the path is not yet mounted it mounts it and reports success; when
the path is already mounted it leaves the table unchanged and its
reported verdict is unreliable — the `report` argument stands for
whatever it happens to answer in that case. -/
def mountBucketCall (st : SandboxState) (path : String) (report : Bool) :
    SandboxState × Bool :=
  if path ∈ st.mountTable then (st, report)
  else ({ mountTable := path :: st.mountTable }, true)

/-- Modelled from the spec: the Storage Mount operation
(`mountR2Storage` in `src/gateway/r2.ts`, not under `src/`).  It invokes
the bucket-mount call at the fixed mount path; on a reported rejection
it independently inspects the live mount table and reclassifies the
outcome as success when the path is in fact mounted. -/
def mountR2Storage (st : SandboxState) (cfg : MountConfig) (report : Bool) :
    SandboxState × Bool :=
  let r := mountBucketCall st R2_MOUNT_PATH report
  if r.2 then (r.1, true)
  else if R2_MOUNT_PATH ∈ r.1.mountTable then (r.1, true)
  else (r.1, false)

/-- C3: the Storage Mount operation is idempotent — invoked twice in a
row against a state in which the mount path is already mounted it
returns success both times, whatever verdicts (`r1`, `r2`) the
underlying mount call happens to report, because an "already mounted"
rejection is reclassified as success after checking the live mount
table. -/
theorem mountR2Storage_idempotent (st : SandboxState) (cfg : MountConfig)
    (r1 r2 : Bool) (h : R2_MOUNT_PATH ∈ st.mountTable) :
    (mountR2Storage st cfg r1).2 = true ∧
    (mountR2Storage (mountR2Storage st cfg r1).1 cfg r2).2 = true := by
  have hbase : ∀ r : Bool, mountR2Storage st cfg r = (st, true) := by
    intro r
    cases r <;> simp [mountR2Storage, mountBucketCall, h]
  refine ⟨by rw [hbase r1], ?_⟩
  rw [hbase r1, hbase r2]

/-- The sandbox state used as the C3 witness: the mount path already
appears in the live mount table. -/
def mountedState : SandboxState := { mountTable := ["/data/moltbot"] }

/-- The mount credentials used as the C3 witness. -/
def witnessMountConfig : MountConfig :=
  { bucket := "moltbot-data", accessKeyId := "AK", secretAccessKey := "SK" }

/-- Witness for C3: with the path already in the mount table and the
underlying call rejecting both times (`false` reports), both invocations
still return success. -/
theorem mountR2Storage_idempotent_witness :
    (mountR2Storage mountedState witnessMountConfig false).2 = true ∧
    (mountR2Storage (mountR2Storage mountedState witnessMountConfig false).1
      witnessMountConfig false).2 = true :=
  mountR2Storage_idempotent mountedState witnessMountConfig false false (by decide)

/-- A file-sync invocation: source directory, destination directory and
the command-line flags passed to the sync tool. -/
structure SyncCommand where
  source : String
  dest : String
  flags : List String
deriving DecidableEq

/-- Modelled from the spec: the sync command constructed by the Sync
Runner (`syncToR2` in `src/gateway/sync.ts`, not under `src/`): a
recursive copy from the local directory to the fixed mount path, using
flags compatible with the storage backend (`-r --no-times`, no
timestamp preservation) and never a delete option. -/
def syncToR2Command (localDir : String) : SyncCommand :=
  { source := localDir, dest := R2_MOUNT_PATH, flags := ["-r", "--no-times"] }

/-- A directory snapshot: an association list from file path to file
contents. -/
abbrev FileMap := List (String × String)

/-- `setFile m k v` stores contents `v` at path `k`, replacing an
existing entry for `k` or appending a new one. -/
def setFile : FileMap → String → String → FileMap
  | [], k, v => [(k, v)]
  | (k0, v0) :: rest, k, v =>
      if k0 == k then (k, v) :: rest else (k0, v0) :: setFile rest k v

/-- `copyAll src dest` copies every source entry into the destination,
overwriting same-path entries and leaving destination-only entries in
place. -/
def copyAll : FileMap → FileMap → FileMap
  | [], dest => dest
  | (k, v) :: rest, dest => copyAll rest (setFile dest k v)

/-- The effect of running a sync command on the source and destination
directory snapshots: all source entries are copied over, and
destination-only entries are removed exactly when a delete flag is part
of the command (a mirroring sync); otherwise they are kept. -/
def applySync (c : SyncCommand) (src dest : FileMap) : FileMap :=
  let copied := copyAll src dest
  if c.flags.contains "--delete" then
    copied.filter (fun kv => (src.lookup kv.1).isSome)
  else copied

theorem lookup_setFile (k k1 v1 : String) :
    ∀ d : FileMap, (setFile d k1 v1).lookup k = if k = k1 then some v1 else d.lookup k := by
  intro d
  induction d with
  | nil =>
    by_cases hk : k = k1
    · simp [setFile, List.lookup, hk]
    · have hb : (k == k1) = false := by simp [hk]
      simp [setFile, List.lookup, hk, hb]
  | cons kv rest ih =>
    obtain ⟨k0, v0⟩ := kv
    by_cases h01 : k0 = k1
    · subst h01
      by_cases hk : k = k0
      · simp [setFile, List.lookup, hk]
      · have hb : (k == k0) = false := by simp [hk]
        simp [setFile, List.lookup, hk, hb]
    · have hb01 : (k0 == k1) = false := by simp [h01]
      by_cases hk0 : k = k0
      · have hk1 : ¬k = k1 := fun h => h01 (hk0.symm.trans h)
        have hbk0 : (k == k0) = true := by simp [hk0]
        simp [setFile, List.lookup, hb01, hbk0, hk1]
      · have hbk0 : (k == k0) = false := by simp [hk0]
        simp [setFile, List.lookup, hb01, hbk0, ih]

theorem setFile_keeps_keys (k k1 v1 : String) (d : FileMap)
    (h : (d.lookup k).isSome = true) :
    ((setFile d k1 v1).lookup k).isSome = true := by
  rw [lookup_setFile]
  by_cases hk : k = k1 <;> simp [hk, h]

theorem copyAll_keeps_keys (k : String) :
    ∀ src dest : FileMap, (dest.lookup k).isSome = true →
      ((copyAll src dest).lookup k).isSome = true := by
  intro src
  induction src with
  | nil => intro dest h; simpa [copyAll] using h
  | cons kv rest ih =>
    intro dest h
    obtain ⟨k1, v1⟩ := kv
    exact ih (setFile dest k1 v1) (setFile_keeps_keys k k1 v1 dest h)

/-- C2: a sync invocation whose destination is the storage mount point
never issues a delete against that destination: the command carries no
delete flag, and every file present at the destination before the sync
is still present after it, even destination-only files that a mirroring
sync would have deleted. -/
theorem syncToR2_never_deletes (localDir : String) (src dest : FileMap) (k : String)
    (h : (dest.lookup k).isSome = true) :
    "--delete" ∉ (syncToR2Command localDir).flags ∧
    ((applySync (syncToR2Command localDir) src dest).lookup k).isSome = true := by
  constructor
  · simp [syncToR2Command]
  · have hflag : (syncToR2Command localDir).flags.contains "--delete" = false := rfl
    simp only [applySync, hflag, if_false, Bool.false_eq_true]
    exact copyAll_keeps_keys k src dest h

/-- Witness for C2: syncing `config.json` from the local directory onto
a destination holding only `legacy.txt` keeps the destination-only
`legacy.txt` in place, and the command carries no delete flag. -/
theorem syncToR2_never_deletes_witness :
    "--delete" ∉ (syncToR2Command "/root/.clawdbot").flags ∧
    ((applySync (syncToR2Command "/root/.clawdbot") [("config.json", "cfg")]
      [("legacy.txt", "old")]).lookup "legacy.txt").isSome = true :=
  syncToR2_never_deletes "/root/.clawdbot" [("config.json", "cfg")]
    [("legacy.txt", "old")] "legacy.txt" (by decide)

/-- C10: every storage mount and every backup sync targets the single
fixed container path `/data/moltbot`: a mount invocation can only ever
add that constant path to the live mount table, the sync destination is
that same constant, and so the mounted bucket and the sync destination
always coincide. -/
theorem mount_and_sync_target_fixed_path (st : SandboxState) (cfg : MountConfig)
    (report : Bool) (localDir : String) (p : String)
    (hp : p ∈ (mountR2Storage st cfg report).1.mountTable) :
    (p ∈ st.mountTable ∨ p = (syncToR2Command localDir).dest) ∧
    (syncToR2Command localDir).dest = "/data/moltbot" := by
  refine ⟨?_, rfl⟩
  by_cases h : R2_MOUNT_PATH ∈ st.mountTable
  · left
    cases report <;> simpa [mountR2Storage, mountBucketCall, h] using hp
  · have : (mountR2Storage st cfg report).1.mountTable = R2_MOUNT_PATH :: st.mountTable := by
      simp [mountR2Storage, mountBucketCall, h]
    rw [this] at hp
    rcases List.mem_cons.mp hp with h1 | h2
    · right; simpa [syncToR2Command] using h1
    · left; exact h2

/-- Witness for C10: mounting onto an empty mount table puts exactly the
sync destination path in the table. -/
theorem mount_and_sync_target_fixed_path_witness :
    ("/data/moltbot" ∈ ({ mountTable := [] } : SandboxState).mountTable ∨
      "/data/moltbot" = (syncToR2Command "/root/.clawdbot").dest) ∧
    (syncToR2Command "/root/.clawdbot").dest = "/data/moltbot" :=
  mount_and_sync_target_fixed_path { mountTable := [] } witnessMountConfig true
    "/root/.clawdbot" "/data/moltbot" (by decide)

/-- The known local port the gateway listens on. -/
def MOLTBOT_PORT : Nat := 18789

/-- One entry of the sandbox process listing: process id, the command it
was started with, and the local port it is bound to, when any. -/
structure ProcessEntry where
  pid : Nat
  command : String
  port : Option Nat
deriving DecidableEq

/-- Modelled from the spec: a process listing entry counts as the
running gateway when it is bound to the known local port or its command
line names the gateway CLI. -/
def isMoltbotGatewayEntry (p : ProcessEntry) : Bool :=
  p.port == some MOLTBOT_PORT || hasSub "clawdbot".toList p.command.toList

/-- Modelled from the spec: the Gateway Locator
(`findExistingMoltbotProcess` in `src/gateway/process.ts`, not under
`src/`) scans the process listing for an already-running gateway. -/
def findExistingMoltbotProcess (ps : List ProcessEntry) : Option ProcessEntry :=
  ps.find? isMoltbotGatewayEntry

/-- The observable state the Gateway Locator/Starter acts on: the
process listing, how many spawn calls have been issued, and the pid the
next spawn would receive. -/
structure GatewaySim where
  processes : List ProcessEntry
  spawnCount : Nat
  nextPid : Nat
deriving DecidableEq

/-- The command line used to spawn the gateway. -/
def gatewayCommand : String := "clawdbot gateway --port 18789"

/-- Modelled from the spec: the startup marker the Gateway Starter waits
for in the output of the spawned gateway, matched case-insensitively. -/
def startupMarkerPred (out : String) : Bool :=
  hasSub "listening".toList (out.toList.map Char.toLower)

/-- The startup timeout in poll ticks, reflecting the one-to-two-minute
cold-start latency. -/
def GATEWAY_STARTUP_TIMEOUT_TICKS : Nat := 120

/-- The process entry created when the Gateway Starter spawns a new
gateway from state `st`. -/
def spawnedGatewayEntry (st : GatewaySim) : ProcessEntry :=
  { pid := st.nextPid, command := gatewayCommand, port := some MOLTBOT_PORT }

/-- Modelled from the spec: `ensureMoltbotGateway` (in
`src/gateway/process.ts`, not under `src/`): return the handle of an
already-running gateway without side effects; otherwise spawn one and
wait for the startup marker in its output, reporting a startup failure —
without killing or retrying the spawned process — when the marker does
not appear before the timeout. -/
def ensureMoltbotGateway (st : GatewaySim) (trace : ProcHandle) :
    GatewaySim × Except String ProcessEntry :=
  match findExistingMoltbotProcess st.processes with
  | some p => (st, Except.ok p)
  | none =>
      let st2 : GatewaySim :=
        { processes := st.processes ++ [spawnedGatewayEntry st],
          spawnCount := st.spawnCount + 1, nextPid := st.nextPid + 1 }
      let r := waitForProcess trace startupMarkerPred GATEWAY_STARTUP_TIMEOUT_TICKS
      if r.completed then (st2, Except.ok (spawnedGatewayEntry st))
      else (st2, Except.error "gateway startup timed out")

/-- C8: whenever a gateway process is already running (bound to the
known port or present in the process listing), `ensureMoltbotGateway`
returns the handle of that process and leaves the state untouched: the
process listing and the spawn count are unchanged, so no new spawn
occurs. -/
theorem ensureMoltbotGateway_no_spawn_when_found (st : GatewaySim) (trace : ProcHandle)
    (p : ProcessEntry) (h : findExistingMoltbotProcess st.processes = some p) :
    ensureMoltbotGateway st trace = (st, Except.ok p) := by
  simp [ensureMoltbotGateway, h]

/-- The already-running gateway entry used as the C8 witness: bound to
the known port. -/
def runningGateway : ProcessEntry :=
  { pid := 41, command := "clawdbot gateway --port 18789", port := some 18789 }

/-- The Gateway Locator state used as the C8 witness. -/
def locatorState : GatewaySim :=
  { processes := [runningGateway], spawnCount := 0, nextPid := 42 }

/-- Witness for C8: with a gateway already bound to port 18789, the
locator returns its handle and the state — in particular the spawn
count — is unchanged. -/
theorem ensureMoltbotGateway_no_spawn_when_found_witness :
    ensureMoltbotGateway locatorState silentTrace = (locatorState, Except.ok runningGateway) :=
  ensureMoltbotGateway_no_spawn_when_found locatorState silentTrace runningGateway (by decide)

/-- C9: when no gateway is running and the startup marker never appears
in the output of the spawned gateway before the timeout, `ensureMoltbotGateway`
reports a startup failure to the caller, the spawn count increases by
exactly one (no retry), and the spawned process is still in the process
listing (not killed). -/
theorem ensureMoltbotGateway_startup_failure (st : GatewaySim) (trace : ProcHandle)
    (hnone : findExistingMoltbotProcess st.processes = none)
    (hmark : ∀ j, startupMarkerPred (trace j).output = false ∧ (trace j).statusTerminal = false) :
    ensureMoltbotGateway st trace =
      ({ processes := st.processes ++ [spawnedGatewayEntry st],
         spawnCount := st.spawnCount + 1, nextPid := st.nextPid + 1 },
        Except.error "gateway startup timed out") ∧
    spawnedGatewayEntry st ∈ (ensureMoltbotGateway st trace).1.processes := by
  have hw : waitForProcess trace startupMarkerPred GATEWAY_STARTUP_TIMEOUT_TICKS =
      { output := (trace GATEWAY_STARTUP_TIMEOUT_TICKS).output, completed := false,
        ticks := GATEWAY_STARTUP_TIMEOUT_TICKS } := by
    have hl := waitLoop_times_out trace startupMarkerPred GATEWAY_STARTUP_TIMEOUT_TICKS 0
      (fun j _ _ => hmark j)
    simpa [waitForProcess] using hl
  constructor
  · simp [ensureMoltbotGateway, hnone, hw]
  · simp [ensureMoltbotGateway, hnone, hw]

/-- The Gateway Starter state used as the C9 witness: no process is
running yet. -/
def freshGatewaySim : GatewaySim := { processes := [], spawnCount := 0, nextPid := 1 }

/-- Witness for C9: spawning from an empty process listing with a
gateway that never prints the startup marker reports the startup
failure, spawns exactly once, and leaves the spawned process in the
listing. -/
theorem ensureMoltbotGateway_startup_failure_witness :
    ensureMoltbotGateway freshGatewaySim silentTrace =
      ({ processes := [] ++ [spawnedGatewayEntry freshGatewaySim],
         spawnCount := 0 + 1, nextPid := 1 + 1 },
        Except.error "gateway startup timed out") ∧
    spawnedGatewayEntry freshGatewaySim ∈
      (ensureMoltbotGateway freshGatewaySim silentTrace).1.processes :=
  ensureMoltbotGateway_startup_failure freshGatewaySim silentTrace (by decide)
    (fun _ => ⟨show startupMarkerPred "still working" = false by decide, rfl⟩)
